import Mathlib

/-!
Verification of the securedrop persistence and identity layer
(`securedrop/db.py`) against its specification.

The Python module is shallowly embedded: each table row class becomes a
Lean structure whose fields mirror the SQLAlchemy columns (nullable
columns become `Option`, `DateTime` values are abstracted as `Nat`
timestamps, binary blobs as `List Nat` byte lists); the module-level
helper `get_one_or_else` and the methods `journalist_filename`,
`documents_messages_count`, `SourceStar.__eq__`, `Journalist.__init__`,
`valid_password` and `login` become Lean functions.  External
collaborators are modelled as inputs: the scrypt key-derivation function
is an arbitrary deterministic function parameter, `os.urandom` output is
the salt argument of the constructor, and the SQLAlchemy query machinery
is a list of matching rows together with the query's textual rendering
and the exception messages `str(e)` would produce.
-/

set_option maxHeartbeats 1000000

/-- Python `str.endswith`, acting on the character sequences of the two
strings. -/
def pyEndswith (s suff : String) : Bool :=
  suff.data.isSuffixOf s.data

/-- Substring test (Python `in` on strings): the pattern occurs
contiguously inside `s`. -/
def strContains (s pat : String) : Bool :=
  decide (pat.data <:+: s.data)

/-- A SQLAlchemy query as `get_one_or_else` and `login` see it: the list
of matching rows, the rendering `str(query)` used by the `%s`
interpolation, and the messages of the two exceptions `query.one()` can
raise. -/
structure QueryM (α : Type) where
  results : List α
  text : String
  multiExcText : String
  noneExcText : String

/-- Behaviour of the `failure_method` argument of `get_one_or_else`:
either it aborts control flow by raising (as `flask.abort` does) or it
returns normally. -/
inductive FailureMode where
  | abort
  | returnNormally
deriving DecidableEq

/-- Outcome of a `get_one_or_else` call: a returned record, an abort
raised by `failure_method(status)`, or the `UnboundLocalError` hit when
`return return_value` runs with `return_value` never assigned. -/
inductive GetOneOutcome (α : Type) where
  | ok (r : α)
  | aborted (status : Nat)
  | unboundLocalError
deriving DecidableEq

/-- The message logged on the `MultipleResultsFound` branch:
`"Found multiple while executing %s when one was expected: %s" % (query, e)`. -/
def multiLogMsg (queryText excText : String) : String :=
  "Found multiple while executing " ++ queryText ++ " when one was expected: " ++ excText

/-- The message logged on the `NoResultFound` branch:
`"Found none when one was expected: %s" % (e,)` — note it interpolates
only the exception, not the query. -/
def noneLogMsg (excText : String) : String :=
  "Found none when one was expected: " ++ excText

/-- What a failure branch of `get_one_or_else` produces after calling
`failure_method(status)`: the abort propagates, or — if `failure_method`
returns — the function falls through to `return return_value` with
`return_value` unbound. -/
def failureOutcome (fm : FailureMode) (status : Nat) : GetOneOutcome α :=
  match fm with
  | .abort => .aborted status
  | .returnNormally => .unboundLocalError

/-- `get_one_or_else(query, logger, failure_method)`: `query.one()`
returns the unique row, or raises `MultipleResultsFound`
(two or more rows, logged with the query text, `failure_method(500)`)
or `NoResultFound` (zero rows, logged without the query text,
`failure_method(404)`).  The second component collects the messages the
logger received. -/
def get_one_or_else (query : QueryM α) (failure_method : FailureMode) :
    GetOneOutcome α × List String :=
  match query.results with
  | [r] => (.ok r, [])
  | [] => (failureOutcome failure_method 404, [noneLogMsg query.noneExcText])
  | _ => (failureOutcome failure_method 500, [multiLogMsg query.text query.multiExcText])

/-- Row of the `submissions` table. -/
structure Submission where
  id : Option Nat
  source_id : Option Nat
  filename : String
  size : Nat
  downloaded : Bool
deriving DecidableEq

/-- The dict built by `documents_messages_count`, with its two keys
`"messages"` and `"documents"`. -/
structure DocsMsgsCount where
  messages : Nat
  documents : Nat
deriving DecidableEq

/-- Row of the `sources` table.  `docs_msgs_count` is the dynamically
added attribute caching the aggregate: `none` while the attribute is
absent (so reading it raises `AttributeError`). -/
structure Source where
  id : Option Nat
  filesystem_id : Option String
  journalist_designation : String
  flagged : Bool
  pending : Bool
  interaction_count : Nat
  submissions : List Submission
  docs_msgs_count : Option DocsMsgsCount
deriving DecidableEq

/-- The allow-set literal `'abcdefghijklmnopqrstuvwxyz1234567890-_'`. -/
def valid_chars : List Char := "abcdefghijklmnopqrstuvwxyz1234567890-_".data

/-- Body of `Source.journalist_filename` as a function of the
designation: `self.journalist_designation.lower().replace(' ', '_')`
filtered to `valid_chars`.  Python `str.lower` is modelled
character-wise by `Char.toLower`. -/
def journalist_filename_str (designation : String) : String :=
  String.mk (((designation.data.map Char.toLower).map
    (fun c => if c = ' ' then '_' else c)).filter (fun c => decide (c ∈ valid_chars)))

/-- `Source.journalist_filename`. -/
def Source.journalist_filename (s : Source) : String :=
  journalist_filename_str s.journalist_designation

/-- Body of the `for submission in self.submissions` loop of
`documents_messages_count`. -/
def docsMsgsStep (counts : DocsMsgsCount) (submission : Submission) : DocsMsgsCount :=
  if pyEndswith submission.filename "msg.gpg" then
    { counts with messages := counts.messages + 1 }
  else if pyEndswith submission.filename "doc.zip.gpg" then
    { counts with documents := counts.documents + 1 }
  else counts

/-- The aggregate computation of `documents_messages_count`, starting
from `{'messages': 0, 'documents': 0}` and folding the loop body over
the submissions in order. -/
def count_docs_msgs (submissions : List Submission) : DocsMsgsCount :=
  submissions.foldl docsMsgsStep { messages := 0, documents := 0 }

/-- `Source.documents_messages_count`: return the cached attribute if it
is set; otherwise compute the counts, store them on the instance, and
return them.  Returns the dict together with the updated instance. -/
def Source.documents_messages_count (s : Source) : DocsMsgsCount × Source :=
  match s.docs_msgs_count with
  | some counts => (counts, s)
  | none =>
    let counts := count_docs_msgs s.submissions
    (counts, { s with docs_msgs_count := some counts })

/-- Row of the `source_stars` table. -/
structure SourceStar where
  id : Option Nat
  source_id : Option Nat
  starred : Bool
deriving DecidableEq

/-- The operand of `SourceStar.__eq__`: another `SourceStar`, or a value
of any other Python type (tagged by its type name). -/
inductive PyEqOperand where
  | sourceStar (t : SourceStar)
  | otherType (typeName : String)

/-- Result of a Python `__eq__` method: a boolean, or the
`NotImplemented` sentinel. -/
inductive PyEqResult where
  | bool (b : Bool)
  | notImplemented
deriving DecidableEq

/-- `SourceStar.__eq__`: field-wise comparison when the operand is a
`SourceStar`, `NotImplemented` otherwise. -/
def SourceStar.eqPy (s : SourceStar) (other : PyEqOperand) : PyEqResult :=
  match other with
  | .sourceStar t => .bool (s.source_id == t.source_id && s.id == t.id && s.starred == t.starred)
  | .otherType _ => .notImplemented

/-- `SourceStar.__init__(source, starred)`. -/
def SourceStar.init (source : Source) (starred : Bool) : SourceStar :=
  { id := none, source_id := source.id, starred := starred }

/-- The external `scrypt.hash` function: deterministic, otherwise
arbitrary; passwords are text, salts and hashes byte lists. -/
abbrev ScryptHash := String → List Nat → List Nat

/-- Row of the `journalists` table. -/
structure Journalist where
  id : Option Nat
  username : String
  pw_salt : List Nat
  pw_hash : List Nat
  is_admin : Bool
  created_on : Option Nat
  last_access : Option Nat
deriving DecidableEq

/-- `Journalist.__init__(username, password, is_admin)`: stores the
username, a fresh salt (the `os.urandom(32)` output is the
`urandom_salt` argument), and the scrypt hash of the password under that
salt. -/
def Journalist.init (scrypt_hash : ScryptHash) (username password : String)
    (urandom_salt : List Nat) (is_admin : Bool) : Journalist :=
  { id := none
    username := username
    pw_salt := urandom_salt
    pw_hash := scrypt_hash password urandom_salt
    is_admin := is_admin
    created_on := none
    last_access := none }

/-- `Journalist.valid_password`: recompute the hash under the stored
salt and compare with the stored hash. -/
def Journalist.valid_password (scrypt_hash : ScryptHash) (j : Journalist)
    (password : String) : Bool :=
  scrypt_hash password j.pw_salt == j.pw_hash

/-- Outcome of `Journalist.login`: the record (success), Python `False`
(wrong password), Python `None` (unknown username), or the uncaught
`MultipleResultsFound` exception raised by `.one()` when several rows
share the username — the IntegrityConflict classification. -/
inductive LoginResult where
  | user (j : Journalist)
  | invalidCredentials
  | notFound
  | multipleResultsFound
deriving DecidableEq

/-- `Journalist.login(username, password)`: filter the journalists table
by username, take `.one()` (catching only `NoResultFound`), then check
the password. -/
def Journalist.login (scrypt_hash : ScryptHash) (journalists : List Journalist)
    (username password : String) : LoginResult :=
  match journalists.filter (fun j => j.username == username) with
  | [] => .notFound
  | [u] => if u.valid_password scrypt_hash password then .user u else .invalidCredentials
  | _ => .multipleResultsFound

/-- `Journalist.login` with the journalists table threaded through as
state: the translation of the method body performs no assignment to any
row and no session write, so every branch returns the table it was
given. -/
def Journalist.login_session (scrypt_hash : ScryptHash) (journalists : List Journalist)
    (username password : String) : LoginResult × List Journalist :=
  match journalists.filter (fun j => j.username == username) with
  | [] => (.notFound, journalists)
  | [u] => (if u.valid_password scrypt_hash password then .user u else .invalidCredentials,
      journalists)
  | _ => (.multipleResultsFound, journalists)

/-- A concrete deterministic stand-in for `scrypt.hash`, used to
instantiate the parameterised theorems on concrete inputs. -/
def demoHash : ScryptHash :=
  fun password salt => (password.data.map Char.toNat) ++ salt

/-- A concrete freshly provisioned journalist account. -/
def alice : Journalist := Journalist.init demoHash "alice" "correct" [1, 2, 3] false

/-- A second record with the same username (integrity violation). -/
def alice2 : Journalist := Journalist.init demoHash "alice" "other" [9, 9] true

/-- C1: a freshly constructed `Journalist(username, password)` stores
`pw_hash = scrypt_hash(password, pw_salt)`, hence `valid_password`
accepts the original password; and `valid_password` rejects every
password whose recomputed hash under the stored salt differs from the
stored hash. -/
theorem journalist_hash_roundtrip (scrypt_hash : ScryptHash) (username password : String)
    (urandom_salt : List Nat) (is_admin : Bool) :
    (Journalist.init scrypt_hash username password urandom_salt is_admin).pw_hash =
      scrypt_hash password
        (Journalist.init scrypt_hash username password urandom_salt is_admin).pw_salt ∧
    (Journalist.init scrypt_hash username password urandom_salt is_admin).valid_password
      scrypt_hash password = true ∧
    ∀ p, scrypt_hash p
        (Journalist.init scrypt_hash username password urandom_salt is_admin).pw_salt ≠
        (Journalist.init scrypt_hash username password urandom_salt is_admin).pw_hash →
      (Journalist.init scrypt_hash username password urandom_salt is_admin).valid_password
        scrypt_hash p = false := by
  refine ⟨rfl, ?_, ?_⟩
  · simp [Journalist.valid_password, Journalist.init]
  · intro p hne
    simpa [Journalist.valid_password, Journalist.init] using hne

/-- Witness for C1 at a concrete account and a concrete wrong password. -/
theorem journalist_hash_roundtrip_witness :
    demoHash "wrong" (Journalist.init demoHash "alice" "correct" [1, 2, 3] false).pw_salt ≠
      (Journalist.init demoHash "alice" "correct" [1, 2, 3] false).pw_hash ∧
    (Journalist.init demoHash "alice" "correct" [1, 2, 3] false).valid_password
      demoHash "wrong" = false :=
  ⟨by decide,
    (journalist_hash_roundtrip demoHash "alice" "correct" [1, 2, 3] false).2.2 "wrong" (by decide)⟩

/-- C2: `login` has exactly the four outcomes — the record itself when
the unique username match verifies, `False` (InvalidCredentials) when
the unique match does not verify, `None` (NotFound) when no record
matches, and the propagated `MultipleResultsFound` (IntegrityConflict)
when two or more records match — and the failure outcomes are pairwise
distinct. -/
theorem login_four_outcomes (scrypt_hash : ScryptHash) (journalists : List Journalist)
    (username password : String) :
    (∀ u, journalists.filter (fun j => j.username == username) = [u] →
      u.valid_password scrypt_hash password = true →
      Journalist.login scrypt_hash journalists username password = .user u) ∧
    (∀ u, journalists.filter (fun j => j.username == username) = [u] →
      u.valid_password scrypt_hash password = false →
      Journalist.login scrypt_hash journalists username password = .invalidCredentials) ∧
    (journalists.filter (fun j => j.username == username) = [] →
      Journalist.login scrypt_hash journalists username password = .notFound) ∧
    (2 ≤ (journalists.filter (fun j => j.username == username)).length →
      Journalist.login scrypt_hash journalists username password = .multipleResultsFound) ∧
    (LoginResult.invalidCredentials ≠ LoginResult.notFound ∧
      LoginResult.invalidCredentials ≠ LoginResult.multipleResultsFound ∧
      LoginResult.notFound ≠ LoginResult.multipleResultsFound) := by
  refine ⟨?_, ?_, ?_, ?_, by decide, by decide, by decide⟩
  · intro u hf hv
    simp [Journalist.login, hf, hv]
  · intro u hf hv
    simp [Journalist.login, hf, hv]
  · intro hf
    simp [Journalist.login, hf]
  · intro hlen
    rcases hf : journalists.filter (fun j => j.username == username) with _ | ⟨a, _ | ⟨b, t⟩⟩
    · rw [hf] at hlen; simp at hlen
    · rw [hf] at hlen; simp at hlen
    · simp [Journalist.login, hf]

/-- Witness for C2: all four outcomes reached on concrete tables. -/
theorem login_four_outcomes_witness :
    Journalist.login demoHash [alice] "alice" "correct" = .user alice ∧
    Journalist.login demoHash [alice] "alice" "wrong" = .invalidCredentials ∧
    Journalist.login demoHash [alice] "bob" "anything" = .notFound ∧
    Journalist.login demoHash [alice, alice2] "alice" "correct" = .multipleResultsFound :=
  ⟨(login_four_outcomes demoHash [alice] "alice" "correct").1 alice (by decide) (by decide),
    (login_four_outcomes demoHash [alice] "alice" "wrong").2.1 alice (by decide) (by decide),
    (login_four_outcomes demoHash [alice] "bob" "anything").2.2.1 (by decide),
    (login_four_outcomes demoHash [alice, alice2] "alice" "correct").2.2.2.1 (by decide)⟩

/-- C8: `login` performs no writes — threading the journalists table
through the method body returns it unchanged (every record, with its
salt, hash and `last_access`, is exactly the one stored before the
call), whatever the outcome; and the outcome agrees with `login`. -/
theorem login_no_writes (scrypt_hash : ScryptHash) (journalists : List Journalist)
    (username password : String) :
    (Journalist.login_session scrypt_hash journalists username password).2 = journalists ∧
    (Journalist.login_session scrypt_hash journalists username password).1 =
      Journalist.login scrypt_hash journalists username password := by
  unfold Journalist.login_session Journalist.login
  rcases hf : journalists.filter (fun j => j.username == username) with _ | ⟨u, _ | ⟨v, rest⟩⟩ <;>
    simp [hf]

/-- C9: `SourceStar.__eq__` affirms equality exactly when the source
reference, the record id and the starred state all match, and answers
`NotImplemented` for an operand of any other type. -/
theorem sourcestar_eq_spec :
    (∀ a b : SourceStar, a.eqPy (PyEqOperand.sourceStar b) = PyEqResult.bool true ↔
      (a.source_id = b.source_id ∧ a.id = b.id ∧ a.starred = b.starred)) ∧
    (∀ (a : SourceStar) (typeName : String),
      a.eqPy (PyEqOperand.otherType typeName) = PyEqResult.notImplemented) := by
  constructor
  · intro a b
    simp [SourceStar.eqPy, and_assoc]
  · intro a t
    rfl

/-- A concrete zero-match query whose textual rendering does not occur
in the message logged on the `NoResultFound` branch. -/
def queryCex : QueryM Nat :=
  { results := []
    text := "journalists.username = aardvark7"
    multiExcText := "Multiple rows were found for one()"
    noneExcText := "No row was found for one()" }

/-- C3 counterexample: on a zero-match query, `get_one_or_else` does
classify the failure as 404, but the single message it logs is built
from the exception alone and does not contain the query text — refuting
the claim that the offending query text is logged on either failure. -/
theorem get_one_or_else_query_log_cex :
    (get_one_or_else queryCex FailureMode.abort).1 = GetOneOutcome.aborted 404 ∧
    (get_one_or_else queryCex FailureMode.abort).2 =
      ["Found none when one was expected: No row was found for one()"] ∧
    ((get_one_or_else queryCex FailureMode.abort).2.all
      (fun m => !(strContains m queryCex.text))) = true := by
  decide

/-- C3 (amended): `get_one_or_else` returns the record exactly on a
one-match query; a zero-match query invokes the failure path with 404
and logs only the exception message; a two-or-more-match query invokes
the failure path with 500 and logs a message that does contain the
offending query text; a multi-match result is never resolved by
returning a record. -/
theorem get_one_or_else_classification (α : Type) (query : QueryM α)
    (failure_method : FailureMode) :
    (∀ r, query.results = [r] →
      get_one_or_else query failure_method = (GetOneOutcome.ok r, [])) ∧
    (query.results = [] →
      get_one_or_else query failure_method =
        (failureOutcome failure_method 404, [noneLogMsg query.noneExcText])) ∧
    (2 ≤ query.results.length →
      get_one_or_else query failure_method =
        (failureOutcome failure_method 500, [multiLogMsg query.text query.multiExcText]) ∧
      strContains (multiLogMsg query.text query.multiExcText) query.text = true) ∧
    (∀ r, (get_one_or_else query failure_method).1 = GetOneOutcome.ok r →
      query.results = [r]) := by
  have hinf : strContains (multiLogMsg query.text query.multiExcText) query.text = true := by
    refine decide_eq_true ?_
    refine ⟨"Found multiple while executing ".data,
      " when one was expected: ".data ++ query.multiExcText.data, ?_⟩
    simp [multiLogMsg]
  refine ⟨?_, ?_, ?_, ?_⟩
  · intro r hr
    simp [get_one_or_else, hr]
  · intro hr
    simp [get_one_or_else, hr]
  · intro hlen
    rcases hr : query.results with _ | ⟨a, _ | ⟨b, t⟩⟩
    · rw [hr] at hlen; simp at hlen
    · rw [hr] at hlen; simp at hlen
    · exact ⟨by simp [get_one_or_else, hr], hinf⟩
  · intro r hok
    rcases hr : query.results with _ | ⟨a, _ | ⟨b, t⟩⟩ <;>
      rw [get_one_or_else] at hok <;> rw [hr] at hok
    · cases failure_method <;> simp [failureOutcome] at hok
    · simpa using hok
    · cases failure_method <;> simp [failureOutcome] at hok

/-- A concrete one-match query. -/
def queryOneW : QueryM Nat :=
  { results := [7], text := "q", multiExcText := "m", noneExcText := "n" }

/-- A concrete two-match query. -/
def queryMultiW : QueryM Nat :=
  { results := [7, 8], text := "q", multiExcText := "m", noneExcText := "n" }

/-- Witness for the amended C3 on concrete one-match and two-match
queries. -/
theorem get_one_or_else_classification_witness :
    get_one_or_else queryOneW FailureMode.abort = (GetOneOutcome.ok 7, []) ∧
    get_one_or_else queryMultiW FailureMode.abort =
      (GetOneOutcome.aborted 500, [multiLogMsg "q" "m"]) ∧
    strContains (multiLogMsg "q" "m") "q" = true := by
  have h1 := (get_one_or_else_classification Nat queryOneW FailureMode.abort).1 7 rfl
  have h2 := (get_one_or_else_classification Nat queryMultiW FailureMode.abort).2.2.1 (by decide)
  exact ⟨h1, h2.1, h2.2⟩

/-- C10: when the query does not yield exactly one match and the
failure handler returns normally, `get_one_or_else` raises
`UnboundLocalError` (its `return_value` was never assigned) instead of
returning a record; and it returns a record only when the query yielded
exactly that one match. -/
theorem get_one_or_else_unbound_local (α : Type) (query : QueryM α) :
    (query.results.length ≠ 1 →
      (get_one_or_else query FailureMode.returnNormally).1 =
        GetOneOutcome.unboundLocalError) ∧
    (∀ failure_method r,
      (get_one_or_else query failure_method).1 = GetOneOutcome.ok r →
      query.results = [r]) := by
  constructor
  · intro hlen
    rcases hr : query.results with _ | ⟨a, _ | ⟨b, t⟩⟩
    · simp [get_one_or_else, hr, failureOutcome]
    · rw [hr] at hlen; simp at hlen
    · simp [get_one_or_else, hr, failureOutcome]
  · intro failure_method r hok
    rcases hr : query.results with _ | ⟨a, _ | ⟨b, t⟩⟩
    · cases failure_method <;> simp [get_one_or_else, hr, failureOutcome] at hok
    · simp [get_one_or_else, hr] at hok
      simp [hok]
    · cases failure_method <;> simp [get_one_or_else, hr, failureOutcome] at hok

/-- A filename ending in `"doc.zip.gpg"` cannot also end in
`"msg.gpg"`: the two suffixes disagree on their last seven characters. -/
theorem doc_suffix_not_msg (filename : String) :
    pyEndswith filename "doc.zip.gpg" = true → pyEndswith filename "msg.gpg" = false := by
  intro h
  by_contra hm
  rw [Bool.not_eq_false] at hm
  rw [pyEndswith, List.isSuffixOf_iff_suffix] at h hm
  rcases List.suffix_or_suffix_of_suffix hm h with hc | hc
  · exact absurd hc (by decide)
  · exact absurd hc (by decide)

/-- Unfolded form of the counting loop: starting from arbitrary counts,
the fold adds the number of `"msg.gpg"`-suffixed filenames to
`messages` and the number of remaining `"doc.zip.gpg"`-suffixed
filenames to `documents`. -/
theorem count_docs_msgs_foldl (submissions : List Submission) (counts : DocsMsgsCount) :
    submissions.foldl docsMsgsStep counts =
      { messages := counts.messages +
          submissions.countP (fun sub => pyEndswith sub.filename "msg.gpg")
        documents := counts.documents +
          submissions.countP (fun sub =>
            !pyEndswith sub.filename "msg.gpg" && pyEndswith sub.filename "doc.zip.gpg") } := by
  induction submissions generalizing counts with
  | nil => simp
  | cons sub rest ih =>
    rw [List.foldl_cons, ih]
    cases hm : pyEndswith sub.filename "msg.gpg" with
    | true =>
      simp [docsMsgsStep, hm, List.countP_cons, DocsMsgsCount.mk.injEq]
      omega
    | false =>
      cases hd : pyEndswith sub.filename "doc.zip.gpg" with
      | true =>
        simp [docsMsgsStep, hm, hd, List.countP_cons, DocsMsgsCount.mk.injEq]
        omega
      | false =>
        simp [docsMsgsStep, hm, hd, List.countP_cons]

/-- `count_docs_msgs` counts exactly the `"msg.gpg"`-suffixed and the
`"doc.zip.gpg"`-suffixed filenames. -/
theorem count_docs_msgs_eq (submissions : List Submission) :
    count_docs_msgs submissions =
      { messages := submissions.countP (fun sub => pyEndswith sub.filename "msg.gpg")
        documents := submissions.countP (fun sub => pyEndswith sub.filename "doc.zip.gpg") } := by
  rw [count_docs_msgs, count_docs_msgs_foldl]
  have hcong : submissions.countP (fun sub =>
        !pyEndswith sub.filename "msg.gpg" && pyEndswith sub.filename "doc.zip.gpg") =
      submissions.countP (fun sub => pyEndswith sub.filename "doc.zip.gpg") := by
    refine List.countP_congr ?_
    intro sub _
    cases hd : pyEndswith sub.filename "doc.zip.gpg" with
    | true => simp [hd, doc_suffix_not_msg sub.filename hd]
    | false => simp [hd]
  simp [hcong]

/-- The three submissions of the worked example in the specification. -/
def subMsg : Submission :=
  { id := some 1, source_id := some 1, filename := "1-msg.gpg", size := 10, downloaded := false }

/-- Second example submission: a document. -/
def subDoc : Submission :=
  { id := some 2, source_id := some 1, filename := "2-doc.zip.gpg", size := 20, downloaded := false }

/-- Third example submission: neither suffix, uncounted. -/
def subOther : Submission :=
  { id := some 3, source_id := some 1, filename := "3-other.gpg", size := 30, downloaded := false }

/-- The example source holding the three submissions, aggregate not yet
cached. -/
def sourceC4 : Source :=
  { id := some 1
    filesystem_id := some "fs1"
    journalist_designation := "Example Name"
    flagged := false
    pending := false
    interaction_count := 3
    submissions := [subMsg, subDoc, subOther]
    docs_msgs_count := none }

/-- C4: on the example source the aggregate is one message and one
document (the third filename is uncounted); in general each
`"msg.gpg"`-suffixed filename adds one to `messages`, each
`"doc.zip.gpg"`-suffixed filename adds one to `documents`, and every
other filename contributes to neither. -/
theorem documents_messages_count_spec :
    (Source.documents_messages_count sourceC4).1 = { messages := 1, documents := 1 } ∧
    ∀ submissions, count_docs_msgs submissions =
      { messages := submissions.countP (fun sub => pyEndswith sub.filename "msg.gpg")
        documents := submissions.countP (fun sub => pyEndswith sub.filename "doc.zip.gpg") } :=
  ⟨by decide, count_docs_msgs_eq⟩

/-- A source whose aggregate will be cached by the first call. -/
def sourceC5 : Source :=
  { id := some 2
    filesystem_id := some "fs2"
    journalist_designation := "Second Name"
    flagged := false
    pending := false
    interaction_count := 1
    submissions := [subMsg]
    docs_msgs_count := none }

/-- The instance after one aggregate call and a subsequent change of its
submission collection (all submissions removed). -/
def sourceC5After : Source :=
  { (Source.documents_messages_count sourceC5).2 with submissions := [] }

/-- C5 counterexample: after the submission collection changes, the
second `documents_messages_count` call still answers the stale cached
counts, not counts recomputed over the changed collection. -/
theorem documents_messages_count_stale_cex :
    (Source.documents_messages_count sourceC5After).1 = { messages := 1, documents := 0 } ∧
    count_docs_msgs sourceC5After.submissions = { messages := 0, documents := 0 } ∧
    (Source.documents_messages_count sourceC5After).1 ≠
      count_docs_msgs sourceC5After.submissions := by
  decide

/-- C5 (amended): once the cache attribute is populated, every later
call returns the cached counts unchanged, even if the submission
collection has changed in the meantime — the cache is never
invalidated. -/
theorem documents_messages_count_cached (s : Source) (counts : DocsMsgsCount)
    (submissions2 : List Submission) (h : s.docs_msgs_count = some counts) :
    (Source.documents_messages_count { s with submissions := submissions2 }).1 = counts := by
  simp [Source.documents_messages_count, h]

/-- Witness for the amended C5 on the concrete changed instance. -/
theorem documents_messages_count_cached_witness :
    (Source.documents_messages_count sourceC5After).1 = { messages := 1, documents := 0 } :=
  documents_messages_count_cached (Source.documents_messages_count sourceC5).2
    { messages := 1, documents := 0 } [] (by decide)

/-- Every character of the allow-set is already lower case and is not a
space, so both rewriting stages fix it. -/
theorem valid_chars_fixed :
    ∀ c ∈ valid_chars, Char.toLower c = c ∧ (if c = ' ' then '_' else c) = c := by
  decide

/-- The slug transform fixes any string all of whose characters lie in
the allow-set. -/
theorem journalist_filename_str_fixed (l : List Char) (h : ∀ c ∈ l, c ∈ valid_chars) :
    journalist_filename_str (String.mk l) = String.mk l := by
  unfold journalist_filename_str
  have h1 : l.map Char.toLower = l := by
    have hfix : ∀ c ∈ l, Char.toLower c = id c := fun c hc => (valid_chars_fixed c (h c hc)).1
    rw [List.map_congr_left hfix, List.map_id]
  have h2 : l.map (fun c => if c = ' ' then '_' else c) = l := by
    have hfix : ∀ c ∈ l, (if c = ' ' then '_' else c) = id c :=
      fun c hc => (valid_chars_fixed c (h c hc)).2
    rw [List.map_congr_left hfix, List.map_id]
  have h3 : l.filter (fun c => decide (c ∈ valid_chars)) = l :=
    List.filter_eq_self.mpr (fun c hc => by simpa using h c hc)
  show String.mk (((l.map Char.toLower).map (fun c => if c = ' ' then '_' else c)).filter
    (fun c => decide (c ∈ valid_chars))) = String.mk l
  rw [h1, h2, h3]

/-- C6: the slug derivation is idempotent — applied to its own output it
returns that output unchanged — and every character of its output lies
in the allow-set `\x7ba-z, 0-9, hyphen, underscore\x7d`. -/
theorem journalist_filename_idempotent (designation : String) :
    journalist_filename_str (journalist_filename_str designation) =
      journalist_filename_str designation ∧
    ((journalist_filename_str designation).data.all (fun c => decide (c ∈ valid_chars))) =
      true := by
  have hmem : ∀ c ∈ (journalist_filename_str designation).data, c ∈ valid_chars := by
    intro c hc
    have hp := (List.mem_filter.mp hc).2
    simpa using hp
  constructor
  · exact journalist_filename_str_fixed (journalist_filename_str designation).data hmem
  · rw [List.all_eq_true]
    intro c hc
    simpa using hmem c hc

/-- The source whose journalist-assigned designation is the example
label of the specification. -/
def sourceAnn : Source :=
  { id := none
    filesystem_id := none
    journalist_designation := "Ann A!"
    flagged := false
    pending := true
    interaction_count := 0
    submissions := []
    docs_msgs_count := none }

/-- C7 counterexample: the slug of the label `"Ann A!"` is not
`"anna"` — the space becomes an underscore before the filter, and the
underscore is in the allow-set, so it survives. -/
theorem journalist_filename_ann_cex : sourceAnn.journalist_filename ≠ "anna" := by
  decide

/-- C7 (amended): the slug derivation applied to the display label
`"Ann A!"` returns the string `"ann_a"`. -/
theorem journalist_filename_ann : sourceAnn.journalist_filename = "ann_a" := by
  decide

/-- A concrete zero-match query for the unbound-local witness. -/
def queryEmptyW : QueryM Nat :=
  { results := [], text := "q0", multiExcText := "m0", noneExcText := "n0" }

/-- A concrete one-match query for the unbound-local witness. -/
def queryOneC10 : QueryM Nat :=
  { results := [5], text := "q5", multiExcText := "m5", noneExcText := "n5" }

/-- Witness for C10: a zero-match query with a normally returning
handler ends in `UnboundLocalError`, and a returned record pins the
result list to exactly that record. -/
theorem get_one_or_else_unbound_local_witness :
    (get_one_or_else queryEmptyW FailureMode.returnNormally).1 =
      GetOneOutcome.unboundLocalError ∧
    queryOneC10.results = [5] :=
  ⟨(get_one_or_else_unbound_local Nat queryEmptyW).1 (by decide),
    (get_one_or_else_unbound_local Nat queryOneC10).2 FailureMode.abort 5 (by decide)⟩
